import Mathlib

/-
Shallow embedding of `venus-worker/src/watchdog.rs` (the module supervisor):
the `WatchDog` structure with `build`, `start_module` and `wait`.

Modelling choices, kept close to the Rust source:

* `Result<(), Error>` returned by a module run becomes `ModResult`
  (errors carried as strings).
* The `anyhow!` error messages produced by `wait` become the structured
  taxonomy `WaitError`; `WaitError.message` recovers the exact formatted
  string of each `anyhow!` call.
* Channels: the zero-capacity `done` broadcast channel is represented by
  its send half (`DoneSender`, recording the capacity `0`) held in
  `done_ctrl`; each registration's result channel is represented by its
  capacity (`1`, from `bounded(1)`).  What a `recv` on a result channel
  observes depends on the scheduler, so `wait` takes it as an input
  `recvOf : Nat → RecvOutcome` (either a posted value, or the
  channel-closed `RecvError`).
* `Select`: crossbeam's `Select::recv` hands out operation indices
  `0, 1, 2, …` in insertion order, so the `indexes` HashMap built by the
  loop maps select index `i` to registration index `i` for
  `i < modules.length`; this is the `indexes` function below.  The index
  reported by the blocking `selector.select()` call is scheduler-chosen,
  so `wait` takes it as the input `opidx`.
* Observable effects are collected in an event trace: the log calls
  (`warn!`/`error!` in `wait`, the per-thread `info!` start/stop), the
  select observing a ready operation, and the closing of the done channel
  that happens when the taken `done_ctrl` (an `Ok` holding the only
  `Sender`) is dropped — explicitly via `drop(done_ctrl)` on the normal
  path, or implicitly at scope exit on the early-return error paths.
  `dropResult` yields the closure event exactly when the dropped value
  actually holds the sender.
* The spawned thread body of `start_module` becomes the event list
  `moduleThread`: start log, stop log, and the single `res_tx.send(res)`.
-/

namespace VenusWorker

/-- Result posted by a module run: `Result<(), Error>`, errors as strings. -/
inductive ModResult where
  | ok : ModResult
  | err (e : String) : ModResult
deriving DecidableEq

/-- Process configuration; its contents are opaque to the supervisor. -/
structure Config where
  payload : Nat
deriving DecidableEq

/-- Shared immutable reference (Rust `Arc`); clones share the value. -/
structure Arc (α : Type) where
  value : α
deriving DecidableEq

/-- Shared collaborator handles (`GlobalModules`); each handle is an opaque
token: the supervisor never looks inside them. -/
structure GlobalModules where
  rpc : Nat
  remote_store : Nat
  pc2 : Nat
  c2 : Nat
  limit : Nat
deriving DecidableEq

/-- Receive half of the zero-capacity done channel (`type Done = Receiver<()>`). -/
structure Done where
  capacity : Nat
deriving DecidableEq

/-- Send half of the zero-capacity done channel. -/
structure DoneSender where
  capacity : Nat
deriving DecidableEq

/-- The shared context handed to every module (`Ctx`). -/
structure Ctx where
  done : Done
  cfg : Arc Config
  global : GlobalModules
deriving DecidableEq

/-- The `Module` trait: a stable identifier and a run function.  The run's
behaviour is abstracted to the result it returns for a given context. -/
structure Module where
  id : String
  run : Ctx → ModResult

/-- Events of a spawned module thread. -/
inductive ThreadEvent where
  | logStart (id : String) : ThreadEvent
  | logStop (id : String) : ThreadEvent
  | send (r : ModResult) : ThreadEvent
deriving DecidableEq

/-- Body of the thread spawned by `start_module`: logs start, runs the
module, logs stop, posts the single result to the result channel. -/
def moduleThread (ctx : Ctx) (m : Module) : List ThreadEvent :=
  [ThreadEvent.logStart m.id, ThreadEvent.logStop m.id, ThreadEvent.send (m.run ctx)]

/-- Is a thread event a post on the result channel? -/
def ThreadEvent.isSend : ThreadEvent → Bool
  | ThreadEvent.send _ => true
  | _ => false

/-- Number of posts on the result channel in a thread-event list. -/
def sendCount (evs : List ThreadEvent) : Nat :=
  (evs.filter ThreadEvent.isSend).length

/-- A registration record: module identifier, the spawned execution
(its event list, standing in for the `JoinHandle`), and the capacity of
its result channel (`bounded(1)`). -/
structure Registration where
  id : String
  hdl : List ThreadEvent
  resCapacity : Nat
deriving DecidableEq

/-- The supervisor state (`struct WatchDog`). -/
structure WatchDog where
  ctx : Ctx
  done_ctrl : Option DoneSender
  modules : List Registration

/-- Taxonomy of the `anyhow!` errors `wait` can build. -/
inductive WaitError where
  | noDoneController : WaitError
  | noModuleForSelectOp (opidx : Nat) : WaitError
  | unableToRecv (mname : String) (e : String) : WaitError
deriving DecidableEq

/-- The formatted message of each `anyhow!` error. -/
def WaitError.message : WaitError → String
  | WaitError.noDoneController => "no done controller provided"
  | WaitError.noModuleForSelectOp opidx =>
      "no module found for select op index " ++ toString opidx
  | WaitError.unableToRecv mname e =>
      "unable to recv run result from module " ++ mname ++ " from chan: " ++ e

/-- What `op.recv` on a result channel observes: a posted value, or the
`RecvError` of a channel closed without a post. -/
inductive RecvOutcome where
  | value (r : ModResult) : RecvOutcome
  | recvError (e : String) : RecvOutcome
deriving DecidableEq

/-- Observable events of a `wait` call. -/
inductive Event where
  | selectReady (opidx : Nat) : Event
  | warnModuleStopped (mname : String) : Event
  | errorModuleStoppedUnexpectedly (mname : String) (e : String) : Event
  | doneChannelClosed : Event
deriving DecidableEq

/-- The `self.done_ctrl.take().ok_or(anyhow!("no done controller provided"))`
line: note the Rust source has no `?` here, so the result is only bound,
never propagated. -/
def takeDoneCtrl : Option DoneSender → Except WaitError DoneSender
  | some s => Except.ok s
  | none => Except.error WaitError.noDoneController

/-- Dropping the bound `done_ctrl` result: when it holds the sender
(`Ok`), the drop closes the done channel; dropping the `Err` does not. -/
def dropResult : Except WaitError DoneSender → List Event
  | Except.ok _ => [Event.doneChannelClosed]
  | Except.error _ => []

/-- The `indexes` HashMap of `wait`: `selector.recv` assigns select
indices `0, 1, …` in insertion order, so it maps select index `i` to
registration index `i` exactly when `i < n`. -/
def indexes (n : Nat) (opidx : Nat) : Option (Fin n) :=
  if h : opidx < n then some ⟨opidx, h⟩ else none

/-- The `match res` classification logs of `wait`. -/
def logEvent (mname : String) : ModResult → Event
  | ModResult.ok => Event.warnModuleStopped mname
  | ModResult.err e => Event.errorModuleStoppedUnexpectedly mname e

/-- `WatchDog::build`: creates the zero-capacity done channel, stores the
send half, wraps the config in an `Arc` and starts with no modules. -/
def WatchDog.build (cfg : Config) (global : GlobalModules) : WatchDog :=
  { ctx := { done := { capacity := 0 }, cfg := { value := cfg }, global := global }
    done_ctrl := some { capacity := 0 }
    modules := [] }

/-- `WatchDog::start_module`: clones the context, spawns the module thread,
creates the `bounded(1)` result channel and appends the registration. -/
def WatchDog.start_module (wd : WatchDog) (m : Module) : WatchDog :=
  { wd with
      modules := wd.modules ++
        [{ id := m.id, hdl := moduleThread wd.ctx m, resCapacity := 1 }] }

/-- `WatchDog::wait`: returns the call's result, the supervisor state after
the call, and the trace of observable events.  `opidx` is the select index
reported by `selector.select()`; `recvOf i` is what `op.recv` on module
`i`'s result channel observes. -/
def WatchDog.wait (wd : WatchDog) (opidx : Nat) (recvOf : Nat → RecvOutcome) :
    Except WaitError Unit × WatchDog × List Event :=
  if wd.modules.isEmpty then
    (Except.ok (), wd, [])
  else
    let done_ctrl := takeDoneCtrl wd.done_ctrl
    let wd' : WatchDog := { wd with done_ctrl := none }
    match indexes wd'.modules.length opidx with
    | none =>
        (Except.error (WaitError.noModuleForSelectOp opidx), wd',
          Event.selectReady opidx :: dropResult done_ctrl)
    | some midx =>
        let mname := (wd'.modules.get midx).id
        match recvOf midx.val with
        | RecvOutcome.recvError e =>
            (Except.error (WaitError.unableToRecv mname e), wd',
              Event.selectReady opidx :: dropResult done_ctrl)
        | RecvOutcome.value res =>
            (Except.ok (), wd',
              Event.selectReady opidx :: logEvent mname res :: dropResult done_ctrl)

/-- Repeated `start_module` calls, in order. -/
def startAll (wd : WatchDog) (ms : List Module) : WatchDog :=
  ms.foldl WatchDog.start_module wd

/-! Helper lemmas: one equation for each control-flow branch of `wait`. -/

theorem wait_eq_nil (wd : WatchDog) (opidx : Nat) (recvOf : Nat → RecvOutcome)
    (h : wd.modules = []) :
    wd.wait opidx recvOf = (Except.ok (), wd, []) := by
  simp [WatchDog.wait, h]

theorem wait_eq_miss (wd : WatchDog) (opidx : Nat) (recvOf : Nat → RecvOutcome)
    (h2 : wd.modules ≠ []) (h : ¬ opidx < wd.modules.length) :
    wd.wait opidx recvOf =
      (Except.error (WaitError.noModuleForSelectOp opidx), { wd with done_ctrl := none },
        Event.selectReady opidx :: dropResult (takeDoneCtrl wd.done_ctrl)) := by
  simp [WatchDog.wait, h2, indexes, h]

theorem wait_eq_recvError (wd : WatchDog) (opidx : Nat) (recvOf : Nat → RecvOutcome)
    (e : String) (h2 : wd.modules ≠ []) (h : opidx < wd.modules.length)
    (hr : recvOf opidx = RecvOutcome.recvError e) :
    wd.wait opidx recvOf =
      (Except.error (WaitError.unableToRecv (wd.modules.get ⟨opidx, h⟩).id e),
        { wd with done_ctrl := none },
        Event.selectReady opidx :: dropResult (takeDoneCtrl wd.done_ctrl)) := by
  simp [WatchDog.wait, h2, indexes, h, hr]

theorem wait_eq_value (wd : WatchDog) (opidx : Nat) (recvOf : Nat → RecvOutcome)
    (r : ModResult) (h2 : wd.modules ≠ []) (h : opidx < wd.modules.length)
    (hr : recvOf opidx = RecvOutcome.value r) :
    wd.wait opidx recvOf =
      (Except.ok (), { wd with done_ctrl := none },
        Event.selectReady opidx :: logEvent (wd.modules.get ⟨opidx, h⟩).id r
          :: dropResult (takeDoneCtrl wd.done_ctrl)) := by
  simp [WatchDog.wait, h2, indexes, h, hr]

/-! Concrete fixtures used for evaluations and witnesses. -/

def cfg0 : Config := { payload := 0 }

def gm0 : GlobalModules := { rpc := 0, remote_store := 0, pc2 := 0, c2 := 0, limit := 0 }

def m0 : Module := { id := "m0", run := fun _ => ModResult.ok }

def wd0 : WatchDog := (WatchDog.build cfg0 gm0).start_module m0

def recvOk : Nat → RecvOutcome := fun _ => RecvOutcome.value ModResult.ok

def recvErrDisk : Nat → RecvOutcome := fun _ => RecvOutcome.value (ModResult.err "disk full")

def recvClosed : Nat → RecvOutcome :=
  fun _ => RecvOutcome.recvError "receiving on an empty and disconnected channel"

def wd1 : WatchDog := (wd0.wait 0 recvOk).2.1

/-- Registry identifiers after a sequence of `start_module` calls. -/
theorem startAll_ids (wd : WatchDog) (ms : List Module) :
    (startAll wd ms).modules.map Registration.id =
      wd.modules.map Registration.id ++ ms.map Module.id := by
  induction ms generalizing wd with
  | nil => simp [startAll]
  | cons m ms ih =>
      have hstep : startAll wd (m :: ms) = startAll (wd.start_module m) ms := rfl
      rw [hstep, ih]
      simp [WatchDog.start_module]

/-! Claim theorems. -/

/-- C6: whenever `wait` is called with zero registered modules, it returns
success immediately, leaves the supervisor (including the cancellation
send-endpoint) untouched, and emits no log events. -/
theorem wait_empty_registry_noop (wd : WatchDog) (opidx : Nat)
    (recvOf : Nat → RecvOutcome) (h : wd.modules = []) :
    wd.wait opidx recvOf = (Except.ok (), wd, []) :=
  wait_eq_nil wd opidx recvOf h

/-- C6 witness: a freshly built supervisor has no modules and its `wait`
returns success with the state unchanged and an empty trace. -/
theorem wait_empty_registry_noop_witness :
    (WatchDog.build cfg0 gm0).modules = [] ∧
    (WatchDog.build cfg0 gm0).wait 0 recvOk =
      (Except.ok (), WatchDog.build cfg0 gm0, []) :=
  ⟨rfl, wait_empty_registry_noop (WatchDog.build cfg0 gm0) 0 recvOk rfl⟩

/-- C8: `build` is a total function (no failure modes): it returns a
supervisor holding the zero-capacity done channel's send half (present,
not yet consumed), a context wrapping the configuration in a shared
immutable reference together with the given shared handles, and an empty
module registry. -/
theorem build_pure_construction (cfg : Config) (global : GlobalModules) :
    WatchDog.build cfg global =
      { ctx := { done := { capacity := 0 }, cfg := { value := cfg }, global := global }
        done_ctrl := some { capacity := 0 }
        modules := [] } :=
  rfl

/-- C5: the select-index lookup succeeds for every index the multiplexer
can report (any `opidx < modules.length`), so `wait` never returns the
"no module found for select op index" internal error for such an index. -/
theorem select_index_lookup_total (wd : WatchDog) (opidx : Nat)
    (recvOf : Nat → RecvOutcome) (h : opidx < wd.modules.length) :
    indexes wd.modules.length opidx = some ⟨opidx, h⟩ ∧
    ∀ k, (wd.wait opidx recvOf).1 ≠ Except.error (WaitError.noModuleForSelectOp k) := by
  have h2 : wd.modules ≠ [] := by
    intro heq
    rw [heq] at h
    simp at h
  refine ⟨by simp [indexes, h], ?_⟩
  intro k
  match hr : recvOf opidx with
  | RecvOutcome.value r =>
      rw [wait_eq_value wd opidx recvOf r h2 h hr]
      simp
  | RecvOutcome.recvError e =>
      rw [wait_eq_recvError wd opidx recvOf e h2 h hr]
      simp

/-- C5 witness: on a supervisor with one module, select index 0 is in
range and the lookup-miss error is never returned. -/
theorem select_index_lookup_total_witness :
    0 < wd0.modules.length ∧
    ∀ k, (wd0.wait 0 recvOk).1 ≠ Except.error (WaitError.noModuleForSelectOp k) :=
  ⟨by decide, (select_index_lookup_total wd0 0 recvOk (by decide)).2⟩

/-- C2: on a first `wait` call (send-endpoint still present) with a
non-empty registry, a posted value — `Ok(())` or `Err(_)` alike — makes
`wait` return success; any error `wait` returns is one of the two
internal-consistency errors (select-index lookup miss, receive failure). -/
theorem first_wait_absorbs_module_results (wd : WatchDog) (s : DoneSender)
    (opidx : Nat) (recvOf : Nat → RecvOutcome)
    (h1 : wd.done_ctrl = some s) (h2 : wd.modules ≠ []) :
    (∀ r, opidx < wd.modules.length → recvOf opidx = RecvOutcome.value r →
        (wd.wait opidx recvOf).1 = Except.ok ()) ∧
    (∀ err, (wd.wait opidx recvOf).1 = Except.error err →
        (∃ k, err = WaitError.noModuleForSelectOp k) ∨
        (∃ n e, err = WaitError.unableToRecv n e)) := by
  constructor
  · intro r h hr
    rw [wait_eq_value wd opidx recvOf r h2 h hr]
  · intro err herr
    by_cases h : opidx < wd.modules.length
    · match hr : recvOf opidx with
      | RecvOutcome.value r =>
          rw [wait_eq_value wd opidx recvOf r h2 h hr] at herr
          simp at herr
      | RecvOutcome.recvError e =>
          rw [wait_eq_recvError wd opidx recvOf e h2 h hr] at herr
          simp at herr
          exact Or.inr ⟨_, e, herr.symm⟩
    · rw [wait_eq_miss wd opidx recvOf h2 h] at herr
      simp at herr
      exact Or.inl ⟨opidx, herr.symm⟩

/-- C2 witness: one module whose posted value is `Err("disk full")`; the
first `wait` still returns success. -/
theorem first_wait_absorbs_module_results_witness :
    wd0.done_ctrl = some { capacity := 0 } ∧ wd0.modules ≠ [] ∧
    (wd0.wait 0 recvErrDisk).1 = Except.ok () :=
  ⟨rfl, by decide,
    (first_wait_absorbs_module_results wd0 { capacity := 0 } 0 recvErrDisk rfl
        (by decide)).1
      (ModResult.err "disk full") (by decide) rfl⟩

/-- C3: on a first `wait` call, when the selected module's result channel
is closed without a posted value, `wait` returns the distinct
"unable to recv run result" error: its message wraps the underlying
channel-closed reason and names that module's identifier, and it differs
from every other error of the taxonomy. -/
theorem wait_recv_failure_error_names_module (wd : WatchDog) (s : DoneSender)
    (opidx : Nat) (recvOf : Nat → RecvOutcome) (e : String)
    (h1 : wd.done_ctrl = some s) (h2 : wd.modules ≠ [])
    (h : opidx < wd.modules.length) (hr : recvOf opidx = RecvOutcome.recvError e) :
    (wd.wait opidx recvOf).1 =
      Except.error (WaitError.unableToRecv (wd.modules.get ⟨opidx, h⟩).id e) ∧
    (WaitError.unableToRecv (wd.modules.get ⟨opidx, h⟩).id e).message =
      "unable to recv run result from module " ++ (wd.modules.get ⟨opidx, h⟩).id
        ++ " from chan: " ++ e ∧
    (∀ k, WaitError.unableToRecv (wd.modules.get ⟨opidx, h⟩).id e ≠
        WaitError.noModuleForSelectOp k) ∧
    WaitError.unableToRecv (wd.modules.get ⟨opidx, h⟩).id e ≠
      WaitError.noDoneController := by
  refine ⟨?_, rfl, ?_, ?_⟩
  · rw [wait_eq_recvError wd opidx recvOf e h2 h hr]
  · intro k
    simp
  · simp

/-- C3 witness: one module, channel closed without a post; the error
returned carries the module identifier and the close reason. -/
theorem wait_recv_failure_error_names_module_witness :
    wd0.done_ctrl = some { capacity := 0 } ∧ 0 < wd0.modules.length ∧
    (wd0.wait 0 recvClosed).1 =
      Except.error (WaitError.unableToRecv "m0"
        "receiving on an empty and disconnected channel") :=
  ⟨rfl, by decide,
    (wait_recv_failure_error_names_module wd0 { capacity := 0 } 0 recvClosed
        "receiving on an empty and disconnected channel" rfl (by decide) (by decide)
        rfl).1⟩

/-- C4: on a first `wait` call with a non-empty registry, the send-endpoint
is taken (none is left in the supervisor), and the trace is the select
observing a ready operation first, the done-channel closure last, with no
closure anywhere earlier: the broadcast channel is closed by the time
`wait` returns and not before the first module termination was observed. -/
theorem wait_closes_done_after_first_termination (wd : WatchDog) (s : DoneSender)
    (opidx : Nat) (recvOf : Nat → RecvOutcome)
    (h1 : wd.done_ctrl = some s) (h2 : wd.modules ≠ []) :
    (wd.wait opidx recvOf).2.1.done_ctrl = none ∧
    ∃ tr₀, (wd.wait opidx recvOf).2.2 =
        Event.selectReady opidx :: (tr₀ ++ [Event.doneChannelClosed]) ∧
      Event.doneChannelClosed ∉ tr₀ := by
  by_cases h : opidx < wd.modules.length
  · match hr : recvOf opidx with
    | RecvOutcome.value r =>
        rw [wait_eq_value wd opidx recvOf r h2 h hr]
        refine ⟨rfl, [logEvent (wd.modules.get ⟨opidx, h⟩).id r], ?_, ?_⟩
        · simp [h1, takeDoneCtrl, dropResult]
        · cases r <;> simp [logEvent]
    | RecvOutcome.recvError e =>
        rw [wait_eq_recvError wd opidx recvOf e h2 h hr]
        exact ⟨rfl, [], by simp [h1, takeDoneCtrl, dropResult], by simp⟩
  · rw [wait_eq_miss wd opidx recvOf h2 h]
    exact ⟨rfl, [], by simp [h1, takeDoneCtrl, dropResult], by simp⟩

/-- C4 witness: one module posting `Ok(())`: the endpoint is consumed and
the closure event is last in the trace, after the select observation. -/
theorem wait_closes_done_after_first_termination_witness :
    wd0.done_ctrl = some { capacity := 0 } ∧ wd0.modules ≠ [] ∧
    ((wd0.wait 0 recvOk).2.1.done_ctrl = none ∧
      ∃ tr₀, (wd0.wait 0 recvOk).2.2 =
          Event.selectReady 0 :: (tr₀ ++ [Event.doneChannelClosed]) ∧
        Event.doneChannelClosed ∉ tr₀) :=
  ⟨rfl, by decide,
    wait_closes_done_after_first_termination wd0 { capacity := 0 } 0 recvOk rfl
      (by decide)⟩

/-- C9: on every return path of a first `wait` call with a non-empty
registry — the two error returns included — the send-endpoint has been
consumed out of the supervisor and its drop closes the done channel, so
the shutdown broadcast happens even when `wait` reports an error. -/
theorem wait_always_consumes_and_closes_done (wd : WatchDog) (s : DoneSender)
    (opidx : Nat) (recvOf : Nat → RecvOutcome)
    (h1 : wd.done_ctrl = some s) (h2 : wd.modules ≠ []) :
    (wd.wait opidx recvOf).2.1.done_ctrl = none ∧
    Event.doneChannelClosed ∈ (wd.wait opidx recvOf).2.2 := by
  by_cases h : opidx < wd.modules.length
  · match hr : recvOf opidx with
    | RecvOutcome.value r =>
        rw [wait_eq_value wd opidx recvOf r h2 h hr]
        simp [h1, takeDoneCtrl, dropResult]
    | RecvOutcome.recvError e =>
        rw [wait_eq_recvError wd opidx recvOf e h2 h hr]
        simp [h1, takeDoneCtrl, dropResult]
  · rw [wait_eq_miss wd opidx recvOf h2 h]
    simp [h1, takeDoneCtrl, dropResult]

/-- C9 witness: an out-of-range select index forces the lookup-miss error
return; the endpoint is still consumed and the channel still closed. -/
theorem wait_always_consumes_and_closes_done_witness :
    wd0.done_ctrl = some { capacity := 0 } ∧ wd0.modules ≠ [] ∧
    ((wd0.wait 5 recvOk).2.1.done_ctrl = none ∧
      Event.doneChannelClosed ∈ (wd0.wait 5 recvOk).2.2) :=
  ⟨rfl, by decide,
    wait_always_consumes_and_closes_done wd0 { capacity := 0 } 5 recvOk rfl
      (by decide)⟩

/-- C7: every registration created by `start_module` is appended with a
capacity-1 result channel; its spawned execution posts exactly one result,
and at the position of any post the number of earlier posts is below the
channel capacity, so posting never blocks the spawned execution. -/
theorem start_module_single_post_capacity_one (wd : WatchDog) (m : Module) :
    ∃ reg : Registration,
      (wd.start_module m).modules = wd.modules ++ [reg] ∧
      reg.resCapacity = 1 ∧
      sendCount reg.hdl = 1 ∧
      ∀ i r, reg.hdl.get? i = some (ThreadEvent.send r) →
        sendCount (reg.hdl.take i) < reg.resCapacity := by
  refine ⟨{ id := m.id, hdl := moduleThread wd.ctx m, resCapacity := 1 },
    rfl, rfl, rfl, ?_⟩
  intro i r hi
  match i with
  | 0 => simp [moduleThread] at hi
  | 1 => simp [moduleThread] at hi
  | 2 => simp [moduleThread, sendCount, ThreadEvent.isSend]
  | n + 3 => simp [moduleThread] at hi

/-- C7 witness: the single registration of the fixture module has a
capacity-1 channel absorbing its exactly-one post. -/
theorem start_module_single_post_capacity_one_witness :
    ∃ reg : Registration,
      ((WatchDog.build cfg0 gm0).start_module m0).modules =
        (WatchDog.build cfg0 gm0).modules ++ [reg] ∧
      reg.resCapacity = 1 ∧
      sendCount reg.hdl = 1 ∧
      ∀ i r, reg.hdl.get? i = some (ThreadEvent.send r) →
        sendCount (reg.hdl.take i) < reg.resCapacity :=
  start_module_single_post_capacity_one (WatchDog.build cfg0 gm0) m0

/-- C10: every `wait` call leaves the module registry and the shared
context unchanged (only `done_ctrl` may change), and a registry built by
`start_module` calls lists the module identifiers in call order. -/
theorem wait_preserves_registry_and_ctx :
    (∀ (wd : WatchDog) (opidx : Nat) (recvOf : Nat → RecvOutcome),
        (wd.wait opidx recvOf).2.1.modules = wd.modules ∧
        (wd.wait opidx recvOf).2.1.ctx = wd.ctx) ∧
    (∀ (wd : WatchDog) (ms : List Module),
        (startAll wd ms).modules.map Registration.id =
          wd.modules.map Registration.id ++ ms.map Module.id) := by
  constructor
  · intro wd opidx recvOf
    by_cases h2 : wd.modules = []
    · rw [wait_eq_nil wd opidx recvOf h2]
      exact ⟨rfl, rfl⟩
    · by_cases h : opidx < wd.modules.length
      · match hr : recvOf opidx with
        | RecvOutcome.value r =>
            rw [wait_eq_value wd opidx recvOf r h2 h hr]
            exact ⟨rfl, rfl⟩
        | RecvOutcome.recvError e =>
            rw [wait_eq_recvError wd opidx recvOf e h2 h hr]
            exact ⟨rfl, rfl⟩
      · rw [wait_eq_miss wd opidx recvOf h2 h]
        exact ⟨rfl, rfl⟩
  · exact startAll_ids

/-- C1: the spec claims a second `wait` call (after a first call consumed
the send-endpoint) fails with the "no done controller provided" misuse
error; the source builds that error with `ok_or` but never propagates it
(the `?` operator is missing), so the second call proceeds to the select.
Evaluated at the failing input — one started module, first `wait` done,
a value posted for the second call — the second call returns `Ok(())`
rather than the misuse error. -/
theorem second_wait_proceeds_despite_missing_done_controller :
    wd1.done_ctrl = none ∧
    (wd1.wait 0 recvOk).1 = Except.ok () :=
  ⟨rfl, rfl⟩

end VenusWorker
